import Mathlib

/-
Shallow embedding of the grafanaclient repository (api.go), centred on the
template-to-dashboard conversion core: the data model (Dashboard, Row, Panel,
Target, Tag, GroupBy, Metric, ...), the default-value constructors (NewRow,
NewPanel, NewTarget, NewLegend, NewGTime, NewTemplate, NewGroupBy), the
field-level zero-fill merge performed by mergo.Merge, the metric-to-target
expansion loop of ConvertTemplate, and the GetDataSource selection loop.

Go machine values are embedded as: string -> String, bool -> Bool,
int -> Int, slices -> List, interface values (dynamic JSON payloads) ->
Option String (nil = none), the empty struct -> Unit.  Field names follow
the Go source; the three Go names that are Lean keywords are primed
(alias -> alias', show -> show', from -> from', to -> to').
-/

namespace Grafana

/-- A Tag allows to filter the values (api.go, struct Tag). -/
structure Tag where
  condition : String
  key : String
  value : String
  deriving Repr, DecidableEq

/-- A GroupBy struct is used to setup the group by part of the query
(api.go, struct GroupBy). -/
structure GroupBy where
  type : String
  interval : String
  params : List String
  deriving Repr, DecidableEq

/-- A Select specify the criteria to perform selection (api.go, struct Select). -/
structure Select where
  type : String
  params : List String
  deriving Repr, DecidableEq

/-- Selects is an array of Select (api.go, type Selects). -/
abbrev Selects := List Select

/-- A Target specify the metrics used by the Panel (api.go, struct Target). -/
structure Target where
  alias' : String
  hide : Bool
  measurement : String
  groupBy : List GroupBy
  select : List Selects
  tags : List Tag
  dsType : String
  transform : String
  deriving Repr, DecidableEq

/-- A Metric is only used in TOML templates to define the targets to create
(api.go, struct Metric). -/
structure Metric where
  measurement : String
  fields : List String
  hosts : List String
  alias' : List String
  deriving Repr, DecidableEq

/-- A SeriesOverride allows to setup specific override by serie
(api.go, struct SeriesOverride). -/
structure SeriesOverride where
  alias' : String
  stack : Bool
  fill : Int
  transform : String
  deriving Repr, DecidableEq

/-- A Legend specify the legend options used by the Panel (api.go, struct Legend). -/
structure Legend where
  show' : Bool
  values : Bool
  min : Bool
  max : Bool
  current : Bool
  total : Bool
  avg : Bool
  alignAsTable : Bool
  deriving Repr, DecidableEq

/-- A Tooltip allow to setup some graphic display options (api.go, struct Tooltip). -/
structure Tooltip where
  valueType : String
  deriving Repr, DecidableEq

/-- A Panel is a component of a Row (api.go, struct Panel).  The Go field
Style has type struct empty and is embedded as Unit; TimeFrom and TimeShift
are interface values embedded as Option String. -/
structure Panel where
  content : String
  editable : Bool
  error : Bool
  id : Int
  mode : String
  span : Int
  style : Unit
  title : String
  type : String
  fill : Int
  stack : Bool
  targets : List Target
  metrics : List Metric
  seriesOverrides : List SeriesOverride
  tooltip : Tooltip
  pageSize : Int
  legend : Legend
  leftYAxisLabel : String
  rightYAxisLabel : String
  dataSource : String
  nullPointMode : String
  valueName : String
  lines : Bool
  linewidth : Int
  points : Bool
  pointradius : Int
  bars : Bool
  percentage : Bool
  steppedLine : Bool
  timeFrom : Option String
  timeShift : Option String
  deriving Repr, DecidableEq

/-- A Row is a dashboard Row, it can contain multiple panels (api.go, struct Row). -/
structure Row where
  collapse : Bool
  editable : Bool
  height : String
  panels : List Panel
  title : String
  deriving Repr, DecidableEq

/-- A GTime contains the Dashboard informations on the time frame of the data
(api.go, struct GTime). -/
structure GTime where
  from' : String
  now : Bool
  to' : String
  deriving Repr, DecidableEq

/-- The anonymous Current sub-struct of Template (api.go, struct Template). -/
structure TemplateCurrent where
  tags : List String
  text : String
  value : Option String
  deriving Repr, DecidableEq

/-- One entry of the Options list of Template (api.go, struct Template). -/
structure TemplateOption where
  selected : Bool
  text : String
  value : String
  deriving Repr, DecidableEq

/-- Template defines a variable usable in Grafana (api.go, struct Template). -/
structure Template where
  allFormat : String
  current : TemplateCurrent
  datasource : String
  includeAll : Bool
  multi : Bool
  multiFormat : String
  name : String
  options : List TemplateOption
  query : String
  refresh : String
  refreshOnLoad : Bool
  regex : String
  type : String
  deriving Repr, DecidableEq

/-- A Templating contains a List of Templates usable in Dashboard
(api.go, struct Templating). -/
structure Templating where
  list : List Template
  deriving Repr, DecidableEq

/-- An Annotation contains the current annotations of a dashboard
(api.go, struct Annotation); the dynamic List entries are embedded opaquely. -/
structure Annotation where
  enable : Bool
  list : List String
  deriving Repr, DecidableEq

/-- A Dashboard contains the Dashboard structure (api.go, struct Dashboard);
the dynamic Tags entries are embedded opaquely as strings. -/
structure Dashboard where
  editable : Bool
  hideControls : Bool
  id : Int
  originalTitle : String
  refresh : String
  annotations : Annotation
  schemaVersion : Int
  sharedCrosshair : Bool
  style : String
  templating : Templating
  tags : List String
  gtime : GTime
  rows : List Row
  title : String
  version : Int
  timezone : String
  deriving Repr, DecidableEq

/-- A DataSource contains the json structure of Grafana DataSource
(api.go, struct DataSource). -/
structure DataSource where
  id : Int
  orgId : Int
  name : String
  type : String
  access : String
  url : String
  password : String
  user : String
  database : String
  basicAuth : Bool
  basicAuthUser : String
  basicAuthPassword : String
  isDefault : Bool
  deriving Repr, DecidableEq

/-- The Go zero value of GTime. -/
def GTime.zero : GTime := ⟨"", false, ""⟩

/-- The Go zero value of Legend. -/
def Legend.zero : Legend := ⟨false, false, false, false, false, false, false, false⟩

/-- The Go zero value of Tooltip. -/
def Tooltip.zero : Tooltip := ⟨""⟩

/-- The Go zero value of Panel. -/
def Panel.zero : Panel :=
  ⟨"", false, false, 0, "", 0, (), "", "", 0, false, [], [], [], Tooltip.zero, 0,
   Legend.zero, "", "", "", "", "", false, 0, false, 0, false, false, false, none, none⟩

/-- The Go zero value of Row. -/
def Row.zero : Row := ⟨false, false, "", [], ""⟩

/-- The Go zero value of TemplateCurrent. -/
def TemplateCurrent.zero : TemplateCurrent := ⟨[], "", none⟩

/-- The Go zero value of Template. -/
def Template.zero : Template :=
  ⟨"", TemplateCurrent.zero, "", false, false, "", "", [], "", "", false, "", ""⟩

/-- The Go zero value of DataSource. -/
def DataSource.zero : DataSource :=
  ⟨0, 0, "", "", "", "", "", "", "", false, "", "", false⟩

/-- NewGroupBy initialize a GroupBy structure (api.go, NewGroupBy). -/
def NewGroupBy : List GroupBy := [⟨"time", "auto", []⟩]

/-- NewRow create a new Grafana row with default values (api.go, NewRow). -/
def NewRow : Row := { Row.zero with height := "200px", editable := true }

/-- NewLegend create a new Grafana legend with default values (api.go, NewLegend). -/
def NewLegend : Legend := { Legend.zero with show' := true }

/-- NewPanel create a new Grafana panel with default values (api.go, NewPanel). -/
def NewPanel : Panel :=
  { Panel.zero with
      span := 6
      type := "graph"
      editable := true
      fill := 0
      legend := NewLegend
      nullPointMode := "connected" }

/-- NewTarget create a new Grafana target with default values (api.go, NewTarget). -/
def NewTarget : Target :=
  ⟨"$tag_host $tag_name", false, "", [], [], [], "influxdb", ""⟩

/-- NewGTime create a default time window for Grafana (api.go, NewGTime). -/
def NewGTime : GTime := ⟨"now-24h", false, "now"⟩

/-- NewTemplate create a default template for Grafana (api.go, NewTemplate). -/
def NewTemplate : Template :=
  { Template.zero with
      type := "query"
      refresh := "1"
      allFormat := "regex values"
      multiFormat := "regex values" }

/-
Field-level merge, embedding mergo.Merge(dst, src) as used by ConvertTemplate:
struct fields are merged recursively, every other field of dst is overwritten
by the corresponding src field exactly when the dst field holds its zero
value (empty string, 0, false, empty slice, nil interface).
-/

/-- mergo leaf rule for a string field: src fills dst only when dst is zero. -/
def mergeString (dst src : String) : String := if dst = "" then src else dst

/-- mergo leaf rule for a bool field. -/
def mergeBool (dst src : Bool) : Bool := if dst = false then src else dst

/-- mergo leaf rule for an int field. -/
def mergeInt (dst src : Int) : Int := if dst = 0 then src else dst

/-- mergo leaf rule for a slice field. -/
def mergeList (dst src : List α) : List α := if dst.isEmpty then src else dst

/-- mergo leaf rule for an interface field. -/
def mergeOpt (dst src : Option α) : Option α := if dst.isNone then src else dst

/-- mergo recursive merge of the Legend struct. -/
def mergeLegend (dst src : Legend) : Legend :=
  ⟨mergeBool dst.show' src.show', mergeBool dst.values src.values,
   mergeBool dst.min src.min, mergeBool dst.max src.max,
   mergeBool dst.current src.current, mergeBool dst.total src.total,
   mergeBool dst.avg src.avg, mergeBool dst.alignAsTable src.alignAsTable⟩

/-- mergo recursive merge of the Tooltip struct. -/
def mergeTooltip (dst src : Tooltip) : Tooltip :=
  ⟨mergeString dst.valueType src.valueType⟩

/-- mergo recursive merge of the Current sub-struct of Template. -/
def mergeTemplateCurrent (dst src : TemplateCurrent) : TemplateCurrent :=
  ⟨mergeList dst.tags src.tags, mergeString dst.text src.text,
   mergeOpt dst.value src.value⟩

/-- mergo.Merge on a Row, as called by ConvertTemplate on each parsed row. -/
def mergeRow (dst src : Row) : Row :=
  ⟨mergeBool dst.collapse src.collapse, mergeBool dst.editable src.editable,
   mergeString dst.height src.height, mergeList dst.panels src.panels,
   mergeString dst.title src.title⟩

/-- mergo.Merge on a Panel, as called by ConvertTemplate on each parsed panel. -/
def mergePanel (dst src : Panel) : Panel :=
  ⟨mergeString dst.content src.content, mergeBool dst.editable src.editable,
   mergeBool dst.error src.error, mergeInt dst.id src.id,
   mergeString dst.mode src.mode, mergeInt dst.span src.span,
   (), mergeString dst.title src.title, mergeString dst.type src.type,
   mergeInt dst.fill src.fill, mergeBool dst.stack src.stack,
   mergeList dst.targets src.targets, mergeList dst.metrics src.metrics,
   mergeList dst.seriesOverrides src.seriesOverrides,
   mergeTooltip dst.tooltip src.tooltip, mergeInt dst.pageSize src.pageSize,
   mergeLegend dst.legend src.legend,
   mergeString dst.leftYAxisLabel src.leftYAxisLabel,
   mergeString dst.rightYAxisLabel src.rightYAxisLabel,
   mergeString dst.dataSource src.dataSource,
   mergeString dst.nullPointMode src.nullPointMode,
   mergeString dst.valueName src.valueName,
   mergeBool dst.lines src.lines, mergeInt dst.linewidth src.linewidth,
   mergeBool dst.points src.points, mergeInt dst.pointradius src.pointradius,
   mergeBool dst.bars src.bars, mergeBool dst.percentage src.percentage,
   mergeBool dst.steppedLine src.steppedLine,
   mergeOpt dst.timeFrom src.timeFrom, mergeOpt dst.timeShift src.timeShift⟩

/-- mergo.Merge on a Template, as called by ConvertTemplate on each template
variable of the dashboard. -/
def mergeTemplate (dst src : Template) : Template :=
  ⟨mergeString dst.allFormat src.allFormat,
   mergeTemplateCurrent dst.current src.current,
   mergeString dst.datasource src.datasource,
   mergeBool dst.includeAll src.includeAll, mergeBool dst.multi src.multi,
   mergeString dst.multiFormat src.multiFormat,
   mergeString dst.name src.name, mergeList dst.options src.options,
   mergeString dst.query src.query, mergeString dst.refresh src.refresh,
   mergeBool dst.refreshOnLoad src.refreshOnLoad,
   mergeString dst.regex src.regex, mergeString dst.type src.type⟩

/-
The conversion core of ConvertTemplate (api.go, lines 862-908): merge the
template variables, merge each row and panel with the defaults, expand each
Metric shorthand into a Target, and default the time range.
-/

/-- Body of the metric loop of ConvertTemplate (api.go, lines 885-901): one
Metric shorthand is expanded into one Target starting from NewTarget, joining
fields and hosts with a pipe, adding the host tag then the AND-chained name
tag, and rebuilding the group-by list from NewGroupBy plus the name and host
tag group-bys. -/
def expandMetric (metric : Metric) : Target :=
  let target := NewTarget
  let fields := String.intercalate "|" metric.fields
  let hosts := String.intercalate "|" metric.hosts
  { target with
      measurement := metric.measurement
      tags := target.tags ++
        [⟨"", "host", "/" ++ hosts ++ "/"⟩, ⟨"AND", "name", "/" ++ fields ++ "/"⟩]
      groupBy := NewGroupBy ++ [⟨"tag", "", ["name"]⟩, ⟨"tag", "", ["host"]⟩] }

/-- Per-panel step of ConvertTemplate (api.go, lines 880-902): merge the panel
with NewPanel, then append one expanded Target per Metric shorthand entry. -/
def convertPanel (panel : Panel) : Panel :=
  let merged := mergePanel panel NewPanel
  { merged with targets := merged.targets ++ merged.metrics.map expandMetric }

/-- Per-row step of ConvertTemplate (api.go, lines 875-903): merge the row with
NewRow, then convert each of its panels. -/
def convertRow (row : Row) : Row :=
  let merged := mergeRow row NewRow
  { merged with panels := merged.panels.map convertPanel }

/-- Template-variable step of ConvertTemplate (api.go, lines 865-873): when the
list is non-empty, merge each template with NewTemplate. -/
def convertTemplating (t : Templating) : Templating :=
  if t.list.length > 0 then ⟨t.list.map (fun tpl => mergeTemplate tpl NewTemplate)⟩
  else t

/-- The post-parse transform of ConvertTemplate (api.go, lines 862-908) on the
parsed Dashboard value: template merging, row and panel merging, metric
expansion, and time-range defaulting. -/
def convertDashboard (d : Dashboard) : Dashboard :=
  let d1 := { d with templating := convertTemplating d.templating }
  let d2 := { d1 with rows := d1.rows.map convertRow }
  if d2.gtime = GTime.zero then { d2 with gtime := NewGTime } else d2

/-- Observable outcome of a call to ConvertTemplate: a normal return of
(dashboard, nil), a normal return of (dashboard, err) with a non-nil error
message, or a runtime panic carrying the panic value. -/
inductive ConvOutcome where
  | ok (dashboard : Dashboard)
  | errReturn (dashboard : Dashboard) (msg : String)
  | panicked (msg : String)
  deriving Repr, DecidableEq

/-- Panic message of a Go method call on a nil error interface value. -/
def nilErrorPanicMsg : String :=
  "runtime error: invalid memory address or nil pointer dereference"

/-- ConvertTemplate (api.go, lines 840-910).  The file system and the two
external decoders are given by their outcomes: readRes is the combined
os.Open / ioutil.ReadAll result (both branches panic with the error on
failure); tomlRes and jsonRes are the outcomes of toml.Unmarshal and
json.Unmarshal into the pre-initialised dashboard (Editable already true).
On TOML success the JSON decoder is never consulted; on TOML failure and
JSON success the parsed dashboard ID is reset to 0; when both decoders fail
the source calls Error() on the nil named return err at api.go line 855,
which panics before the combined parse error of line 856 can be produced. -/
def ConvertTemplate (readRes : Except String Unit)
    (tomlRes : Except String Dashboard) (jsonRes : Except String Dashboard) :
    ConvOutcome :=
  match readRes with
  | .error e => .panicked e
  | .ok _ =>
    match tomlRes with
    | .ok parsed => .ok (convertDashboard parsed)
    | .error _ =>
      match jsonRes with
      | .ok parsed => .ok (convertDashboard { parsed with id := 0 })
      | .error _ => .panicked nilErrorPanicMsg

/-- The selection loop of GetDataSource (api.go, lines 729-733): scan the
fetched list and keep the element whose Name matches, starting from the
zero-valued named return ds. -/
def getDataSourceLoop (name : String) (dslist : List DataSource) : DataSource :=
  dslist.foldl (fun ds elem => if elem.name = name then elem else ds) DataSource.zero

/-- GetDataSource (api.go, lines 723-735), given the outcome of
GetDataSourceList: on fetch failure the error is propagated, otherwise the
loop result is returned with a nil error. -/
def GetDataSource (name : String) (listRes : Except String (List DataSource)) :
    Except String DataSource :=
  match listRes with
  | .error e => .error e
  | .ok dslist => .ok (getDataSourceLoop name dslist)

/-
Serialization view: the json struct tags of Panel (api.go, lines 428-460)
emit every field except Metrics, whose tag is "-".  PanelWire is the record
of json-visible Panel data; marshalPanel, marshalRow and marshalDashboard
embed what encoding/json serializes when a dashboard is uploaded.
-/

/-- The json-visible fields of a Panel: every Panel field except Metrics,
which carries the json tag "-" (api.go, line 441). -/
structure PanelWire where
  content : String
  editable : Bool
  error : Bool
  id : Int
  mode : String
  span : Int
  style : Unit
  title : String
  type : String
  fill : Int
  stack : Bool
  targets : List Target
  seriesOverrides : List SeriesOverride
  tooltip : Tooltip
  pageSize : Int
  legend : Legend
  leftYAxisLabel : String
  rightYAxisLabel : String
  dataSource : String
  nullPointMode : String
  valueName : String
  lines : Bool
  linewidth : Int
  points : Bool
  pointradius : Int
  bars : Bool
  percentage : Bool
  steppedLine : Bool
  timeFrom : Option String
  timeShift : Option String
  deriving Repr, DecidableEq

/-- What encoding/json emits for a Panel: all fields but Metrics. -/
def marshalPanel (p : Panel) : PanelWire :=
  ⟨p.content, p.editable, p.error, p.id, p.mode, p.span, p.style, p.title,
   p.type, p.fill, p.stack, p.targets, p.seriesOverrides, p.tooltip,
   p.pageSize, p.legend, p.leftYAxisLabel, p.rightYAxisLabel, p.dataSource,
   p.nullPointMode, p.valueName, p.lines, p.linewidth, p.points,
   p.pointradius, p.bars, p.percentage, p.steppedLine, p.timeFrom, p.timeShift⟩

/-- The json-visible fields of a Row. -/
structure RowWire where
  collapse : Bool
  editable : Bool
  height : String
  panels : List PanelWire
  title : String
  deriving Repr, DecidableEq

/-- What encoding/json emits for a Row. -/
def marshalRow (r : Row) : RowWire :=
  ⟨r.collapse, r.editable, r.height, r.panels.map marshalPanel, r.title⟩

/-- True exactly when a ConvertTemplate call returns to its caller (normally
or with an error value) instead of panicking. -/
def ConvOutcome.returnsToCaller : ConvOutcome → Bool
  | .panicked _ => false
  | _ => true

/-- The Go zero value of Dashboard, as left by `var dashboard Dashboard`
before any field is set or parsed. -/
def Dashboard.zero : Dashboard :=
  ⟨false, false, 0, "", "", ⟨false, []⟩, 0, false, "", ⟨[]⟩, [],
   GTime.zero, [], "", 0, ""⟩

/-- The Metric of the end-to-end scenario of the spec. -/
def cpuMetric : Metric := ⟨"cpu", ["busy"], ["host1", "host2"], []⟩

/-- A template panel holding only the cpu Metric shorthand. -/
def cpuPanel : Panel := { Panel.zero with metrics := [cpuMetric] }

/-- The end-to-end template: one Row containing one Panel containing the cpu
Metric shorthand. -/
def cpuDashboard : Dashboard :=
  { Dashboard.zero with rows := [{ Row.zero with panels := [cpuPanel] }] }

/-- A panel with an explicit non-empty Targets list and one Metric entry. -/
def explicitTargetPanel : Panel :=
  { Panel.zero with targets := [NewTarget], metrics := [cpuMetric] }

/-- A dashboard around explicitTargetPanel. -/
def explicitTargetDashboard : Dashboard :=
  { Dashboard.zero with rows := [{ Row.zero with panels := [explicitTargetPanel] }] }

/-- A fully expanded dashboard: defaults filled, time range set, no metrics. -/
def expandedDashboard : Dashboard :=
  { Dashboard.zero with
      editable := true
      gtime := NewGTime
      rows := [{ NewRow with panels := [NewPanel] }] }

/-- A data source whose name matches nothing we look up. -/
def dsOther : DataSource := { DataSource.zero with name := "graphite" }

/-- First of two data sources sharing the name influx. -/
def dsInfluxA : DataSource :=
  { DataSource.zero with name := "influx", url := "http://one:8086" }

/-- Second of two data sources sharing the name influx. -/
def dsInfluxB : DataSource :=
  { DataSource.zero with name := "influx", url := "http://two:8086" }

/-
Helper lemmas shared by the claim theorems.
-/

/-- Merging a slice with an empty source slice never changes it. -/
theorem mergeList_nil (l : List α) : mergeList l [] = l := by
  cases l <;> simp [mergeList]

/-- Merging a string with an empty source string never changes it. -/
theorem mergeString_empty (s : String) : mergeString s "" = s := by
  by_cases h : s = "" <;> simp [mergeString, h]

/-- Merging a bool with a false source bool never changes it. -/
theorem mergeBool_false (b : Bool) : mergeBool b false = b := by
  cases b <;> simp [mergeBool]

/-- Merging an int with a zero source int never changes it. -/
theorem mergeInt_zero (i : Int) : mergeInt i 0 = i := by
  by_cases h : i = 0 <;> simp [mergeInt, h]

/-- Merging an interface value with a nil source never changes it. -/
theorem mergeOpt_none (o : Option α) : mergeOpt o none = o := by
  cases o <;> simp [mergeOpt]

/-- A map whose function fixes every member of the list is the identity. -/
theorem map_id_on (l : List α) (f : α → α) :
    (∀ a ∈ l, f a = a) → l.map f = l := by
  induction l with
  | nil => intro _; rfl
  | cons x xs ih =>
    intro h
    have hx := h x (List.mem_cons_self x xs)
    have hxs : ∀ a ∈ xs, f a = a := fun a ha => h a (List.mem_cons_of_mem x ha)
    simp [hx, ih hxs]

/-- The GetDataSource loop leaves its accumulator alone on a list without a
matching name. -/
theorem foldl_no_match (name : String) (l : List DataSource) :
    ∀ acc : DataSource, (∀ e ∈ l, e.name ≠ name) →
    l.foldl (fun ds elem => if elem.name = name then elem else ds) acc = acc := by
  induction l with
  | nil => intro _ _; rfl
  | cons x xs ih =>
    intro acc h
    have hx := h x (List.mem_cons_self x xs)
    have hxs : ∀ e ∈ xs, e.name ≠ name := fun e he => h e (List.mem_cons_of_mem x he)
    simp only [List.foldl_cons, if_neg hx]
    exact ih acc hxs

/-- The Targets slice of a panel merged with NewPanel is the parsed one. -/
theorem mergePanel_targets (p : Panel) : (mergePanel p NewPanel).targets = p.targets := by
  simp [mergePanel, NewPanel, Panel.zero, mergeList_nil]

/-- The Metrics slice of a panel merged with NewPanel is the parsed one. -/
theorem mergePanel_metrics (p : Panel) : (mergePanel p NewPanel).metrics = p.metrics := by
  simp [mergePanel, NewPanel, Panel.zero, mergeList_nil]

/-
Claim theorems.
-/

/-- Claim C1, counterexample.  On the end-to-end scenario (one Row, one Panel,
one Metric with measurement cpu, fields busy, hosts host1 and host2) the
synthesized Target's group-by sequence has length 3, not 2 as the claim
states, and it is not the two-element [name, host] list the claim gives:
NewGroupBy contributes a leading time group-by entry. -/
theorem groupBy_length_three_cex :
    ((convertDashboard cpuDashboard).rows.map fun r =>
      r.panels.map fun p => p.targets.map fun t => t.groupBy.length) = [[[3]]] ∧
    (expandMetric cpuMetric).groupBy ≠
      [⟨"tag", "", ["name"]⟩, ⟨"tag", "", ["host"]⟩] := by
  constructor
  · rfl
  · decide

/-- Claim C1, amended: ConvertTemplate appends exactly one Target per Metric
entry of a panel (in order); every synthesized Target has exactly 2 Tags, the
host tag first and then the name tag with AND condition, and a group-by
sequence of length 3 ordered [time, name, host] (the name/host tag group-bys
come, in that order, after the initial time entry contributed by NewGroupBy);
on the concrete input Metric with measurement cpu, fields [busy] and hosts
[host1, host2] the Target has measurement cpu,
tags [host: /host1|host2/, name: /busy/ AND] and that three-element group-by. -/
theorem convertPanel_expands_metrics (p : Panel) (m : Metric) :
    (convertPanel p).targets.length = p.targets.length + p.metrics.length ∧
    (convertPanel p).targets = p.targets ++ p.metrics.map expandMetric ∧
    (expandMetric m).tags =
      [⟨"", "host", "/" ++ String.intercalate "|" m.hosts ++ "/"⟩,
       ⟨"AND", "name", "/" ++ String.intercalate "|" m.fields ++ "/"⟩] ∧
    (expandMetric m).tags.length = 2 ∧
    (expandMetric m).groupBy =
      [⟨"time", "auto", []⟩, ⟨"tag", "", ["name"]⟩, ⟨"tag", "", ["host"]⟩] ∧
    (expandMetric m).measurement = m.measurement ∧
    expandMetric cpuMetric =
      ⟨"$tag_host $tag_name", false, "cpu",
       [⟨"time", "auto", []⟩, ⟨"tag", "", ["name"]⟩, ⟨"tag", "", ["host"]⟩],
       [], [⟨"", "host", "/host1|host2/"⟩, ⟨"AND", "name", "/busy/"⟩],
       "influxdb", ""⟩ := by
  refine ⟨?_, ?_, ?_, ?_, ?_, ?_, ?_⟩
  · simp [convertPanel, mergePanel_targets, mergePanel_metrics]
  · simp [convertPanel, mergePanel_targets, mergePanel_metrics]
  · simp [expandMetric, NewTarget]
  · simp [expandMetric, NewTarget]
  · simp [expandMetric, NewGroupBy]
  · simp [expandMetric, NewTarget]
  · rfl

/-- Claim C2 (code bug witness): when both the TOML and the JSON decoder fail,
ConvertTemplate panics with a nil-interface method call (api.go line 855 calls
Error() on the nil named return err) instead of returning the combined parse
error that line 856 would build; the claimed behavior (an error naming both
parse failures returned to the caller) is never reached. -/
theorem dual_parse_failure_panics (tomlMsg jsonMsg : String) :
    ConvertTemplate (.ok ()) (.error tomlMsg) (.error jsonMsg) =
      .panicked nilErrorPanicMsg ∧
    (ConvertTemplate (.ok ()) (.error tomlMsg) (.error jsonMsg)).returnsToCaller
      = false := by
  exact ⟨rfl, rfl⟩

/-- Claim C6: a Row and a Panel left entirely at zero values come out of the
merge as exactly the documented defaults: the Row gets height 200px and
editable true, the Panel gets span 6, type graph, editable true and fill 0;
indeed the merge result is exactly NewRow resp. NewPanel. -/
theorem zero_merge_gives_defaults :
    mergeRow Row.zero NewRow = NewRow ∧
    mergePanel Panel.zero NewPanel = NewPanel ∧
    convertRow Row.zero = NewRow ∧
    convertPanel Panel.zero = NewPanel ∧
    NewRow.height = "200px" ∧ NewRow.editable = true ∧
    NewPanel.span = 6 ∧ NewPanel.type = "graph" ∧
    NewPanel.editable = true ∧ NewPanel.fill = 0 := by
  decide

/-- Claim C8, counterexample: on an I/O failure (file missing or unreadable)
ConvertTemplate does not return the error to its caller; it panics with the
I/O error (api.go lines 841-849 call panic on both failure paths). -/
theorem io_failure_not_returned_cex :
    ConvertTemplate (.error "open example.toml: no such file or directory")
        (.error "t") (.error "j") =
      .panicked "open example.toml: no such file or directory" ∧
    (ConvertTemplate (.error "open example.toml: no such file or directory")
        (.error "t") (.error "j")).returnsToCaller = false := by
  exact ⟨rfl, rfl⟩

/-- Claim C8, amended: on every I/O failure ConvertTemplate panics with
exactly the I/O error (so the error is surfaced, not silently swallowed, and
conversion aborts), no parse or retry is attempted (the outcome is the same
whatever the decoders would have produced), and no retry logic exists. -/
theorem io_failure_panics (e : String) (tomlRes jsonRes : Except String Dashboard) :
    ConvertTemplate (.error e) tomlRes jsonRes = .panicked e := by
  rfl

/-- Claim C10: when the TOML parse fails and the JSON parse succeeds, the
returned Dashboard has its ID reset to 0; when the TOML parse succeeds, the
parsed ID is preserved by the rest of the conversion and the JSON decoder is
never consulted (the outcome does not depend on it). -/
theorem id_reset_on_json_path (tomlMsg : String) (d : Dashboard)
    (jsonRes : Except String Dashboard) :
    ConvertTemplate (.ok ()) (.error tomlMsg) (.ok d) =
      .ok (convertDashboard { d with id := 0 }) ∧
    (convertDashboard { d with id := 0 }).id = 0 ∧
    ConvertTemplate (.ok ()) (.ok d) jsonRes = .ok (convertDashboard d) ∧
    (convertDashboard d).id = d.id := by
  have hid : ∀ d' : Dashboard, (convertDashboard d').id = d'.id := by
    intro d'
    simp only [convertDashboard]
    split <;> rfl
  exact ⟨rfl, hid _, rfl, hid d⟩

/-- Claim C3: the conversion transform is idempotent on fully-expanded
dashboards: when every template variable, row and panel already absorbs its
defaults merge, no panel carries Metric shorthand, and the time range is set,
running the ConvertTemplate transform leaves the Dashboard unchanged. -/
theorem convertDashboard_idempotent (d : Dashboard)
    (hTpl : ∀ t ∈ d.templating.list, mergeTemplate t NewTemplate = t)
    (hRow : ∀ r ∈ d.rows, mergeRow r NewRow = r)
    (hPanel : ∀ r ∈ d.rows, ∀ p ∈ r.panels, mergePanel p NewPanel = p)
    (hMetrics : ∀ r ∈ d.rows, ∀ p ∈ r.panels, p.metrics = [])
    (hTime : d.gtime ≠ GTime.zero) :
    convertDashboard d = d := by
  have hcp : ∀ r ∈ d.rows, ∀ p ∈ r.panels, convertPanel p = p := by
    intro r hr p hp
    have h1 := hPanel r hr p hp
    have h2 := hMetrics r hr p hp
    simp [convertPanel, h1, h2]
    rw [← h2]
  have hrows : d.rows.map convertRow = d.rows := by
    apply map_id_on
    intro r hr
    have h1 := hRow r hr
    have h2 : r.panels.map convertPanel = r.panels :=
      map_id_on _ _ (hcp r hr)
    simp [convertRow, h1, h2]
  have htpl : convertTemplating d.templating = d.templating := by
    have h1 : d.templating.list.map (fun tpl => mergeTemplate tpl NewTemplate)
        = d.templating.list := map_id_on _ _ hTpl
    unfold convertTemplating
    split
    · rw [h1]
    · rfl
  simp [convertDashboard, htpl, hrows, hTime]

/-- Claim C3, witness: a concrete fully-expanded dashboard (default row and
panel, time range now-24h/now, no metrics) is a fixed point of the transform. -/
theorem convertDashboard_idempotent_witness :
    expandedDashboard.gtime ≠ GTime.zero ∧
    (∀ r ∈ expandedDashboard.rows, mergeRow r NewRow = r) ∧
    convertDashboard expandedDashboard = expandedDashboard := by
  refine ⟨by decide, by decide, ?_⟩
  exact convertDashboard_idempotent expandedDashboard (by decide) (by decide)
    (by decide) (by decide) (by decide)

/-- Claim C4: a parsed Dashboard whose GTime is entirely zero-valued leaves
ConvertTemplate with the default window from now-24h to now, while a
Dashboard with any non-zero time field keeps its time range untouched. -/
theorem gtime_defaulting (d : Dashboard) :
    (d.gtime = GTime.zero → (convertDashboard d).gtime = NewGTime) ∧
    (d.gtime ≠ GTime.zero → (convertDashboard d).gtime = d.gtime) ∧
    NewGTime.from' = "now-24h" ∧ NewGTime.to' = "now" := by
  refine ⟨?_, ?_, rfl, rfl⟩
  · intro h
    simp [convertDashboard, h]
  · intro h
    simp [convertDashboard, h]

/-- Claim C4, witness: the zero dashboard gets the default window, and a
dashboard with an explicit time range keeps it. -/
theorem gtime_defaulting_witness :
    Dashboard.zero.gtime = GTime.zero ∧
    (convertDashboard Dashboard.zero).gtime = NewGTime ∧
    expandedDashboard.gtime ≠ GTime.zero ∧
    (convertDashboard expandedDashboard).gtime = expandedDashboard.gtime := by
  refine ⟨by decide, ?_, by decide, ?_⟩
  · exact (gtime_defaulting Dashboard.zero).1 (by decide)
  · exact (gtime_defaulting expandedDashboard).2.1 (by decide)

/-- Claim C5, counterexample: a field holding an explicit non-empty value does
not always equal its parsed value after ConvertTemplate: a panel with an
explicit non-empty Targets list and one Metric entry ends up with two targets
where the template had one, because metric expansion appends to the sequence. -/
theorem explicit_targets_changed_cex :
    ((convertDashboard explicitTargetDashboard).rows.map fun r =>
      r.panels.map fun p => p.targets.length) = [[2]] ∧
    (explicitTargetDashboard.rows.map fun r =>
      r.panels.map fun p => p.targets.length) = [[1]] := by
  exact ⟨rfl, rfl⟩

/-- Claim C5, amended: the defaults merge never overwrites an explicit
non-zero/non-empty Row or Panel field — after ConvertTemplate every such leaf
field equals its parsed value, and defaults are written only into zero-valued
fields — with one exception forced by metric expansion: a panel's Targets
sequence keeps the parsed targets unchanged as a prefix and gains one
synthesized target per Metric entry (and the Panels sequence is transformed
panel-by-panel in place, keeping length and order). -/
theorem merge_preserves_explicit_fields (r : Row) (p : Panel) :
    (convertRow r).collapse = r.collapse ∧
    (convertRow r).editable = (if r.editable = false then true else r.editable) ∧
    (convertRow r).height = (if r.height = "" then "200px" else r.height) ∧
    (convertRow r).title = r.title ∧
    (convertRow r).panels = r.panels.map convertPanel ∧
    (convertRow r).panels.length = r.panels.length ∧
    (convertPanel p).content = p.content ∧
    (convertPanel p).editable = (if p.editable = false then true else p.editable) ∧
    (convertPanel p).error = p.error ∧
    (convertPanel p).id = p.id ∧
    (convertPanel p).mode = p.mode ∧
    (convertPanel p).span = (if p.span = 0 then 6 else p.span) ∧
    (convertPanel p).title = p.title ∧
    (convertPanel p).type = (if p.type = "" then "graph" else p.type) ∧
    (convertPanel p).fill = p.fill ∧
    (convertPanel p).stack = p.stack ∧
    (convertPanel p).targets = p.targets ++ p.metrics.map expandMetric ∧
    (convertPanel p).metrics = p.metrics ∧
    (convertPanel p).seriesOverrides = p.seriesOverrides ∧
    (convertPanel p).tooltip.valueType = p.tooltip.valueType ∧
    (convertPanel p).pageSize = p.pageSize ∧
    (convertPanel p).legend =
      { p.legend with show' := if p.legend.show' = false then true else p.legend.show' } ∧
    (convertPanel p).leftYAxisLabel = p.leftYAxisLabel ∧
    (convertPanel p).rightYAxisLabel = p.rightYAxisLabel ∧
    (convertPanel p).dataSource = p.dataSource ∧
    (convertPanel p).nullPointMode =
      (if p.nullPointMode = "" then "connected" else p.nullPointMode) ∧
    (convertPanel p).valueName = p.valueName ∧
    (convertPanel p).lines = p.lines ∧
    (convertPanel p).linewidth = p.linewidth ∧
    (convertPanel p).points = p.points ∧
    (convertPanel p).pointradius = p.pointradius ∧
    (convertPanel p).bars = p.bars ∧
    (convertPanel p).percentage = p.percentage ∧
    (convertPanel p).steppedLine = p.steppedLine ∧
    (convertPanel p).timeFrom = p.timeFrom ∧
    (convertPanel p).timeShift = p.timeShift := by
  refine ⟨?_, ?_, ?_, ?_, ?_, ?_, ?_, ?_, ?_, ?_, ?_, ?_, ?_, ?_, ?_, ?_, ?_,
    ?_, ?_, ?_, ?_, ?_, ?_, ?_, ?_, ?_, ?_, ?_, ?_, ?_, ?_, ?_, ?_, ?_, ?_, ?_⟩ <;>
    simp [convertRow, convertPanel, mergeRow, mergePanel, mergeLegend,
      mergeTooltip, mergeString, mergeBool, mergeInt, NewRow, NewPanel,
      NewLegend, Row.zero, Panel.zero, Legend.zero, Tooltip.zero,
      mergeList_nil, mergeOpt_none, mergeString_empty, mergeBool_false,
      mergeInt_zero] <;>
    try (intro h ; simp [h])

/-- Claim C7, counterexample: the Dashboard value returned by ConvertTemplate
does not have empty Metrics sequences — the conversion never clears them: on
the end-to-end template the converted panel still carries its one Metric. -/
theorem metrics_remain_in_memory_cex :
    ((convertDashboard cpuDashboard).rows.map fun r =>
      r.panels.map fun p => p.metrics.length) = [[1]] ∧
    ((convertDashboard cpuDashboard).rows.map fun r =>
      r.panels.map fun p => p.metrics) ≠ [[[]]] := by
  exact ⟨rfl, by decide⟩

/-- Claim C7, amended: ConvertTemplate leaves the Metric shorthand entries in
the in-memory Dashboard (the Metrics slices are preserved, not emptied), but
they are never part of the serialized dashboard sent to the server: the json
tag of Metrics is the dash, so the marshalled form of a Panel (and hence of a
Row) is independent of its Metrics slice. -/
theorem metrics_never_serialized :
    (∀ p : Panel, (convertPanel p).metrics = p.metrics) ∧
    (∀ (p : Panel) (ms : List Metric),
      marshalPanel { p with metrics := ms } = marshalPanel p) ∧
    (∀ r : Row,
      marshalRow { r with panels := r.panels.map fun p => { p with metrics := [] } }
        = marshalRow r) := by
  refine ⟨?_, ?_, ?_⟩
  · intro p
    simp [convertPanel, mergePanel_metrics]
  · intro p ms
    rfl
  · intro r
    simp only [marshalRow, List.map_map]
    congr 1

/-- Claim C9: GetDataSource produces no not-found error: on a fetched list
without a matching name it returns the zero-valued DataSource with a nil
error, and when several data sources share the requested name the one
occurring last in list order wins. -/
theorem getDataSource_last_match (name : String) :
    (∀ l : List DataSource, (∀ e ∈ l, e.name ≠ name) →
      GetDataSource name (.ok l) = .ok DataSource.zero) ∧
    (∀ (l₁ : List DataSource) (d : DataSource) (l₂ : List DataSource),
      d.name = name → (∀ e ∈ l₂, e.name ≠ name) →
      GetDataSource name (.ok (l₁ ++ d :: l₂)) = .ok d) := by
  constructor
  · intro l h
    simp only [GetDataSource, getDataSourceLoop]
    rw [foldl_no_match name l DataSource.zero h]
  · intro l₁ d l₂ hd h₂
    simp only [GetDataSource, getDataSourceLoop, List.foldl_append,
      List.foldl_cons, if_pos hd]
    rw [foldl_no_match name l₂ d h₂]

/-- Claim C9, witness: looking up influx in a list holding only graphite
yields the zero DataSource with success, and with two influx entries the
second one is returned. -/
theorem getDataSource_last_match_witness :
    GetDataSource "influx" (.ok [dsOther]) = .ok DataSource.zero ∧
    GetDataSource "influx" (.ok [dsInfluxA, dsOther, dsInfluxB]) = .ok dsInfluxB := by
  constructor
  · exact (getDataSource_last_match "influx").1 [dsOther] (by decide)
  · exact (getDataSource_last_match "influx").2 [dsInfluxA, dsOther] dsInfluxB []
      (by decide) (by decide)

end Grafana
